import Mathlib

/-!
Shallow embedding of the claude-swarm orchestration core
(src/claude_swarm/orchestrator.py and src/claude_swarm/agents/base.py),
together with proofs settling the specification claims about it.

Conventions of the embedding:
- Python dicts holding JSON-like data are modelled as association lists
  over a `Json` value type; dict assignment replaces the first binding
  of the key in place (Python dicts keep insertion order).
- Python truthiness of JSON values is made explicit via `Json.truthy`.
- The external agent capability (a spawned subprocess) is modelled as an
  oracle function supplied to the orchestrator functions.
- Persistence (one JSON file per session id) is modelled as an
  association list from session id to the serialized session record.
- Wall-clock timestamps and elapsed times carry no logic; timestamps are
  threaded as an opaque string parameter, elapsed time as a Nat.
-/

namespace ClaudeSwarm

/-- Python str.strip with no argument: remove leading and trailing
whitespace (space, tab, newline, carriage return, form feed, vertical tab). -/
def pyIsSpace (c : Char) : Bool :=
  c = ' ' || c = '\t' || c = '\n' || c = '\r' || c = '\x0c' || c = '\x0b'

/-- Drop leading Python whitespace from a character list. -/
def dropLeadingWs (cs : List Char) : List Char :=
  cs.dropWhile pyIsSpace

/-- Python str.strip on a string. -/
def pyStrip (s : String) : String :=
  ⟨dropLeadingWs ((dropLeadingWs s.data.reverse).reverse)⟩

/-- Python str.lower restricted to ASCII (all inputs exercised here are ASCII). -/
def pyLower (s : String) : String :=
  ⟨s.data.map Char.toLower⟩

/-- Python str.replace for single characters, used for key.replace(" ", "_"). -/
def pyReplaceChar (s : String) (a b : Char) : String :=
  ⟨s.data.map (fun c => if c = a then b else c)⟩

/-- Python "sep".join for a list of strings. -/
def pyJoin (sep : String) (xs : List String) : String :=
  String.intercalate sep xs

/-- Python s.split(sep, 1): split a character list at the first occurrence of a
separator character, returning the part before and the part after. -/
def splitOnceAux (sep : Char) : List Char → Option (List Char × List Char)
  | [] => none
  | c :: cs =>
    if c = sep then some ([], cs)
    else match splitOnceAux sep cs with
      | none => none
      | some (l, r) => some (c :: l, r)

/-- Python s.split(sep, 1) on strings; none when the separator is absent. -/
def pySplitOnce (s : String) (sep : Char) : Option (String × String) :=
  match splitOnceAux sep s.data with
  | none => none
  | some (l, r) => some (⟨l⟩, ⟨r⟩)

/-- Python s.split(sep) with a single-character separator (no limit). -/
def pySplitAll (s : String) (sep : Char) : List String :=
  (s.data.splitOn sep).map (fun cs => (⟨cs⟩ : String))

/-- JSON values as produced by Python json.loads. Numbers keep their literal
text; no claim in this development inspects numeric magnitude beyond
zero-ness for truthiness. -/
inductive Json where
  | null
  | bool (b : Bool)
  | num (lit : String)
  | str (s : String)
  | arr (xs : List Json)
  | obj (fields : List (String × Json))

/-- Python equality test of an arbitrary JSON value against a string literal
(true only when the value is that exact string). -/
def Json.isStr : Json → String → Bool
  | .str t, s => t = s
  | _, _ => false

/-- A numeric literal denotes zero iff its mantissa has no nonzero digit. -/
def Json.numIsZero (lit : String) : Bool :=
  (lit.data.takeWhile (fun c => c ≠ 'e' && c ≠ 'E')).all
    (fun c => !(c.isDigit && c ≠ '0'))

/-- Python truthiness of a JSON value: None, False, numeric zero, the empty
string, the empty list and the empty dict are falsy; everything else truthy. -/
def Json.truthy : Json → Bool
  | .null => false
  | .bool b => b
  | .num lit => !Json.numIsZero lit
  | .str s => !s.isEmpty
  | .arr xs => !xs.isEmpty
  | .obj fields => !fields.isEmpty

/-- Python str() rendering of a JSON value, as interpolated by f-strings.
Container rendering is approximate (no claim exercises it); the scalar
cases match Python exactly. -/
def Json.pyStr : Json → String
  | .null => "None"
  | .bool true => "True"
  | .bool false => "False"
  | .num lit => lit
  | .str s => s
  | .arr _ => "[...]"
  | .obj _ => "\x7b...\x7d"

/-- Lookup in a Python dict modelled as an association list (first binding wins;
bindings are kept unique by pyUpsert). -/
def assocGet (d : List (String × Json)) (k : String) : Option Json :=
  match d.find? (fun p => p.1 = k) with
  | some p => some p.2
  | none => none

/-- Python dict get with a default value. -/
def dictGetD (d : List (String × Json)) (k : String) (dflt : Json) : Json :=
  (assocGet d k).getD dflt

/-- Python dict assignment d[k] = v: replace the first binding of k in place,
append a new binding when absent. -/
def pyUpsert (d : List (String × Json)) (k : String) (v : Json) : List (String × Json) :=
  match d with
  | [] => [(k, v)]
  | (k0, v0) :: rest =>
    if k0 = k then (k0, v) :: rest else (k0, v0) :: pyUpsert rest k v

/-- Python dict.update(other): assign every binding of other in order. -/
def pyDictUpdate (d other : List (String × Json)) : List (String × Json) :=
  other.foldl (fun acc p => pyUpsert acc p.1 p.2) d

/-- Whitespace accepted between JSON tokens by json.loads: space, tab,
newline, carriage return. -/
def jsonWs (c : Char) : Bool :=
  c = ' ' || c = '\t' || c = '\n' || c = '\r'

/-- Skip inter-token JSON whitespace. -/
def skipWsJ (cs : List Char) : List Char :=
  cs.dropWhile jsonWs

/-- Hexadecimal digit test. -/
def isHexDigitChar (c : Char) : Bool :=
  c.isDigit || ('a' ≤ c && c ≤ 'f') || ('A' ≤ c && c ≤ 'F')

/-- Value of a hexadecimal digit. -/
def hexDigitVal (c : Char) : Nat :=
  if c.isDigit then c.toNat - 48
  else if 'a' ≤ c && c ≤ 'f' then c.toNat - 87
  else c.toNat - 55

/-- Parse the body of a JSON string after the opening quote, handling the
escape sequences json.loads accepts; returns the decoded characters and the
remainder after the closing quote. -/
def parseJsonStrBody : List Char → Option (List Char × List Char)
  | [] => none
  | '"' :: rest => some ([], rest)
  | '\\' :: '"' :: rest =>
    (parseJsonStrBody rest).map (fun p => ('"' :: p.1, p.2))
  | '\\' :: '\\' :: rest =>
    (parseJsonStrBody rest).map (fun p => ('\\' :: p.1, p.2))
  | '\\' :: '/' :: rest =>
    (parseJsonStrBody rest).map (fun p => ('/' :: p.1, p.2))
  | '\\' :: 'b' :: rest =>
    (parseJsonStrBody rest).map (fun p => ('\x08' :: p.1, p.2))
  | '\\' :: 'f' :: rest =>
    (parseJsonStrBody rest).map (fun p => ('\x0c' :: p.1, p.2))
  | '\\' :: 'n' :: rest =>
    (parseJsonStrBody rest).map (fun p => ('\n' :: p.1, p.2))
  | '\\' :: 'r' :: rest =>
    (parseJsonStrBody rest).map (fun p => ('\r' :: p.1, p.2))
  | '\\' :: 't' :: rest =>
    (parseJsonStrBody rest).map (fun p => ('\t' :: p.1, p.2))
  | '\\' :: 'u' :: h1 :: h2 :: h3 :: h4 :: rest =>
    if isHexDigitChar h1 && isHexDigitChar h2 && isHexDigitChar h3 && isHexDigitChar h4 then
      let n := ((hexDigitVal h1 * 16 + hexDigitVal h2) * 16 + hexDigitVal h3) * 16 + hexDigitVal h4
      (parseJsonStrBody rest).map (fun p => (Char.ofNat n :: p.1, p.2))
    else none
  | '\\' :: _ => none
  | c :: rest =>
    if c.toNat < 32 then none
    else (parseJsonStrBody rest).map (fun p => (c :: p.1, p.2))

/-- Consume one or more decimal digits. -/
def takeDigits (cs : List Char) : List Char × List Char :=
  (cs.takeWhile Char.isDigit, cs.dropWhile Char.isDigit)

/-- Parse a JSON number literal (sign, integer part without leading zeros,
optional fraction, optional exponent); returns the literal text consumed and
the remainder. -/
def parseJsonNum (cs : List Char) : Option (List Char × List Char) :=
  let (sign, cs1) := match cs with
    | '-' :: rest => (['-'], rest)
    | _ => ([], cs)
  match cs1 with
  | [] => none
  | c :: _ =>
    if !c.isDigit then none
    else
      let (intPart, cs2) :=
        if c = '0' then ([c], cs1.tail)
        else takeDigits cs1
      let (fracPart, cs3) := match cs2 with
        | '.' :: rest =>
          let (ds, r) := takeDigits rest
          if ds.isEmpty then ([], cs2) else ('.' :: ds, r)
        | _ => ([], cs2)
      if (match cs2 with | '.' :: _ => fracPart.isEmpty | _ => false) then none
      else
        match cs3 with
        | e :: rest =>
          if e = 'e' || e = 'E' then
            let (esign, rest2) := match rest with
              | '+' :: r => (['+'], r)
              | '-' :: r => (['-'], r)
              | _ => ([], rest)
            let (eds, rest3) := takeDigits rest2
            if eds.isEmpty then none
            else some (sign ++ intPart ++ fracPart ++ e :: esign ++ eds, rest3)
          else some (sign ++ intPart ++ fracPart, cs3)
        | [] => some (sign ++ intPart ++ fracPart, cs3)

mutual

/-- Parse one JSON value (after skipping leading whitespace); fuel bounds the
recursion and is chosen large enough for the whole input at the call site. -/
def parseJsonVal (fuel : Nat) (cs : List Char) : Option (Json × List Char) :=
  match fuel with
  | 0 => none
  | fuel + 1 =>
    match skipWsJ cs with
    | '"' :: rest =>
      (parseJsonStrBody rest).map (fun p => (Json.str ⟨p.1⟩, p.2))
    | '{' :: rest =>
      match skipWsJ rest with
      | '}' :: rest2 => some (Json.obj [], rest2)
      | rest2 =>
        (parseObjItems fuel rest2).map
          (fun p => (Json.obj (p.1.foldl (fun acc q => pyUpsert acc q.1 q.2) []), p.2))
    | '[' :: rest =>
      match skipWsJ rest with
      | ']' :: rest2 => some (Json.arr [], rest2)
      | rest2 => (parseArrItems fuel rest2).map (fun p => (Json.arr p.1, p.2))
    | 'n' :: 'u' :: 'l' :: 'l' :: rest => some (Json.null, rest)
    | 't' :: 'r' :: 'u' :: 'e' :: rest => some (Json.bool true, rest)
    | 'f' :: 'a' :: 'l' :: 's' :: 'e' :: rest => some (Json.bool false, rest)
    | rest =>
      (parseJsonNum rest).map (fun p => (Json.num ⟨p.1⟩, p.2))

/-- Parse the comma-separated items of a nonempty JSON array, up to and
including the closing bracket. -/
def parseArrItems (fuel : Nat) (cs : List Char) : Option (List Json × List Char) :=
  match fuel with
  | 0 => none
  | fuel + 1 =>
    match parseJsonVal fuel cs with
    | none => none
    | some (v, r) =>
      match skipWsJ r with
      | ',' :: r2 =>
        (parseArrItems fuel r2).map (fun p => (v :: p.1, p.2))
      | ']' :: r2 => some ([v], r2)
      | _ => none

/-- Parse the comma-separated key-value pairs of a nonempty JSON object, up
to and including the closing brace. -/
def parseObjItems (fuel : Nat) (cs : List Char) :
    Option (List (String × Json) × List Char) :=
  match fuel with
  | 0 => none
  | fuel + 1 =>
    match skipWsJ cs with
    | '"' :: rest =>
      match parseJsonStrBody rest with
      | none => none
      | some (k, r) =>
        match skipWsJ r with
        | ':' :: r2 =>
          match parseJsonVal fuel r2 with
          | none => none
          | some (v, r3) =>
            match skipWsJ r3 with
            | ',' :: r4 =>
              (parseObjItems fuel r4).map (fun p => ((⟨k⟩, v) :: p.1, p.2))
            | '}' :: r4 => some ([(⟨k⟩, v)], r4)
            | _ => none
        | _ => none
    | _ => none

end

/-- Python json.loads on a whole string: one JSON value surrounded by optional
whitespace, rejecting any other trailing content. The NaN and Infinity
extensions are not modelled (no input here uses them). -/
def pyJsonLoads (output : String) : Option Json :=
  match parseJsonVal (2 * output.data.length + 8) output.data with
  | some (v, rest) => if (skipWsJ rest).isEmpty then some v else none
  | none => none

/-- The backtick character, written via its code point. -/
def backtickChar : Char := Char.ofNat 96

/-- The literal characters of the fence opener followed by the word json. -/
def fenceJsonPat : List Char :=
  backtickChar :: backtickChar :: backtickChar :: ['j', 's', 'o', 'n']

/-- The literal characters of the fence opener followed by the word summary. -/
def fenceSummaryPat : List Char :=
  backtickChar :: backtickChar :: backtickChar :: ['s', 'u', 'm', 'm', 'a', 'r', 'y']

/-- The characters of a newline followed by a closing fence. -/
def nlFencePat : List Char :=
  '\n' :: backtickChar :: backtickChar :: [backtickChar]

/-- Index of the first occurrence of a pattern in a character list. -/
def findSubIdx (pat : List Char) : List Char → Option Nat
  | [] => if pat.isEmpty then some 0 else none
  | c :: rest =>
    if pat.isPrefixOf (c :: rest) then some 0
    else (findSubIdx pat rest).map (fun n => n + 1)

/-- Check the tail of the fenced-json regex after the closing brace of the
candidate capture: the pattern demands whitespace then a newline then the
closing fence; since a backtick is not regex whitespace, the whole maximal
whitespace run must be consumed, must end in a newline, and must be followed
immediately by three backticks. -/
def fencedJsonTailOk (cs : List Char) : Bool :=
  let run := cs.takeWhile pyIsSpace
  let rest := cs.dropWhile pyIsSpace
  match run.getLast?, rest with
  | some '\n', b1 :: b2 :: b3 :: _ =>
    b1 = backtickChar && b2 = backtickChar && b3 = backtickChar
  | _, _ => false

/-- Scan the body of a fenced-json candidate after its opening brace: the
non-greedy star extends the capture to each successive closing brace in turn
until the tail of the pattern matches. Returns the capture including both
braces. -/
def scanFencedJsonBody (acc : List Char) : List Char → Option (List Char)
  | [] => none
  | c :: rest =>
    if c = '}' && fencedJsonTailOk rest then some (acc ++ ['}'])
    else scanFencedJsonBody (acc ++ [c]) rest

/-- Attempt the fenced-json pattern immediately after its opening token: the
regex whitespace-then-newline prefix, followed by an opening brace. As the
brace is not regex whitespace, the match requires the maximal whitespace run
to end with a newline followed directly by the brace. -/
def matchFencedJsonAt (cs : List Char) : Option (List Char) :=
  let run := cs.takeWhile pyIsSpace
  let rest := cs.dropWhile pyIsSpace
  match run.getLast?, rest with
  | some '\n', '{' :: body => scanFencedJsonBody ['{'] body
  | _, _ => none

/-- Leftmost-first regex search for the fenced-json block: embedding of
re.search over the pattern of a json fence, whitespace and newline, a braced
non-greedy body, whitespace and newline, and a closing fence, with DOTALL. -/
def findFencedJsonCapture : List Char → Option (List Char)
  | [] => none
  | c :: rest =>
    if fenceJsonPat.isPrefixOf (c :: rest) then
      match matchFencedJsonAt ((c :: rest).drop fenceJsonPat.length) with
      | some cap => some cap
      | none => findFencedJsonCapture rest
    else findFencedJsonCapture rest

/-- Try the whitespace-splits of the fenced-summary pattern: the greedy
whitespace star backtracks over the newlines of the maximal whitespace run
from the last to the first; for each split the non-greedy capture runs to the
first following newline-plus-fence occurrence. -/
def trySummarySplits (run rest : List Char) : Nat → Option (List Char)
  | 0 => none
  | i + 1 =>
    if run.getD i ' ' = '\n' then
      let tail := run.drop (i + 1) ++ rest
      match findSubIdx nlFencePat tail with
      | some q => some (tail.take q)
      | none => trySummarySplits run rest i
    else trySummarySplits run rest i

/-- Attempt the fenced-summary pattern immediately after its opening token. -/
def matchFencedSummaryAt (cs : List Char) : Option (List Char) :=
  let run := cs.takeWhile pyIsSpace
  let rest := cs.dropWhile pyIsSpace
  trySummarySplits run rest run.length

/-- Leftmost-first regex search for the fenced-summary block with DOTALL. -/
def findFencedSummaryCapture : List Char → Option (List Char)
  | [] => none
  | c :: rest =>
    if fenceSummaryPat.isPrefixOf (c :: rest) then
      match matchFencedSummaryAt ((c :: rest).drop fenceSummaryPat.length) with
      | some cap => some cap
      | none => findFencedSummaryCapture rest
    else findFencedSummaryCapture rest

/-- Python str.upper restricted to ASCII. -/
def pyUpper (s : String) : String :=
  ⟨s.data.map Char.toUpper⟩

/-- Python slicing s[:n] in characters. -/
def pyTake (s : String) (n : Nat) : String :=
  ⟨s.data.take n⟩

/-- Python slicing s[-n:] in characters, which is the whole string when it is
no longer than n. -/
def pyTakeLast (s : String) (n : Nat) : String :=
  ⟨s.data.drop (s.data.length - n)⟩

/-- Python rendering of an optional string under an f-string: None prints as
the word None. -/
def pyOptStr : Option String → String
  | none => "None"
  | some s => s

/-- The AgentType enumeration of agents/base.py. -/
inductive AgentType where
  | orchestrator | coder | reviewer | security | tester | docs | architect
  | refactor | debugger | mobile_ui | mobile_perf | aws | infra
deriving DecidableEq

/-- The string value of each AgentType member. -/
def AgentType.value : AgentType → String
  | .orchestrator => "orchestrator"
  | .coder => "coder"
  | .reviewer => "reviewer"
  | .security => "security"
  | .tester => "tester"
  | .docs => "docs"
  | .architect => "architect"
  | .refactor => "refactor"
  | .debugger => "debugger"
  | .mobile_ui => "mobile_ui"
  | .mobile_perf => "mobile_perf"
  | .aws => "aws"
  | .infra => "infra"

/-- Python AgentType(s) lookup by value; none models the ValueError raised on
an unknown value. -/
def AgentType.fromValue (s : String) : Option AgentType :=
  if s = "orchestrator" then some .orchestrator
  else if s = "coder" then some .coder
  else if s = "reviewer" then some .reviewer
  else if s = "security" then some .security
  else if s = "tester" then some .tester
  else if s = "docs" then some .docs
  else if s = "architect" then some .architect
  else if s = "refactor" then some .refactor
  else if s = "debugger" then some .debugger
  else if s = "mobile_ui" then some .mobile_ui
  else if s = "mobile_perf" then some .mobile_perf
  else if s = "aws" then some .aws
  else if s = "infra" then some .infra
  else none

/-- One structured issue reported by an agent. The source keeps issues as raw
dicts and only ever reads their severity key by string equality; the
description carries the free text. A non-string severity behaves like an
absent one in every comparison the source makes. -/
structure Issue where
  severity : Option String := none
  description : String := ""
deriving DecidableEq

/-- The AgentResult dataclass of agents/base.py. Python stores whatever value
the parsed output supplied in blocked and block_reason; blocked is observed
only through truthiness and block_reason only through rendering, which the
conversion functions below make explicit. Elapsed time carries no logic and
is a Nat. -/
structure AgentResult where
  agent_type : AgentType
  task_id : String
  success : Bool
  summary : String
  files_changed : List String := []
  files_created : List String := []
  issues_found : List Issue := []
  suggestions : List String := []
  blocked : Bool := false
  block_reason : Option String := none
  raw_output : Option String := none
  execution_time : Nat := 0
  tokens_used : Option Nat := none
deriving DecidableEq

/-- The compact one-line digest of a result (AgentResult.to_summary_string). -/
def AgentResult.to_summary_string (r : AgentResult) : String :=
  let parts := ["[" ++ pyUpper r.agent_type.value ++ "]"]
  let parts := parts ++ [if r.success then "✓" else "✗"]
  let parts :=
    if !r.files_changed.isEmpty then
      let parts := parts ++ ["Changed: " ++ pyJoin ", " (r.files_changed.take 3)]
      if r.files_changed.length > 3 then
        parts ++ ["(+" ++ toString (r.files_changed.length - 3) ++ " more)"]
      else parts
    else parts
  let parts :=
    if !r.issues_found.isEmpty then
      let critical := (r.issues_found.filter (fun i => i.severity = some "critical")).length
      let warnings := (r.issues_found.filter (fun i => i.severity = some "warning")).length
      let parts := if critical ≠ 0 then parts ++ ["🔴 " ++ toString critical ++ " critical"] else parts
      if warnings ≠ 0 then parts ++ ["🟡 " ++ toString warnings ++ " warnings"] else parts
    else parts
  let parts := if r.blocked then parts ++ ["⛔ BLOCKED: " ++ pyOptStr r.block_reason] else parts
  pyJoin " | " parts

/-- The initial result dict of BaseAgent.\_parse_output. -/
def parseOutputInit : List (String × Json) :=
  [("summary", Json.str ""), ("files_changed", Json.arr []), ("files_created", Json.arr []),
   ("issues", Json.arr []), ("suggestions", Json.arr []), ("blocked", Json.bool false),
   ("block_reason", Json.null)]

/-- The raw Claude CLI JSON branch of \_parse_output: dispatch on the subtype
of a top-level JSON object whose type is the word result. -/
def rawClaudeDispatch (fields : List (String × Json)) : List (String × Json) :=
  let result := parseOutputInit
  let subtype := dictGetD fields "subtype" (Json.str "")
  if subtype.isStr "error_max_turns" then
    pyUpsert (pyUpsert (pyUpsert result
      "summary" (Json.str "Agent reached maximum turns limit"))
      "blocked" (Json.bool true))
      "block_reason" (Json.str "Max turns reached - task may be too complex")
  else if subtype.isStr "error" then
    let err := dictGetD fields "error" (Json.str "Unknown error")
    pyUpsert (pyUpsert (pyUpsert result
      "summary" (Json.str ("Agent error: " ++ err.pyStr)))
      "blocked" (Json.bool true))
      "block_reason" err
  else if subtype.isStr "interactive" then
    pyUpsert result "summary" (dictGetD fields "message" (Json.str "Running in separate terminal"))
  else
    pyUpsert result "summary" (dictGetD fields "result" (Json.str "Task completed"))

/-- First strategy of \_parse_output: the whole output parses as JSON and is a
dict whose type key equals the word result; none when the branch is not
taken and parsing falls through. -/
def parseRawClaudeJson (output : String) : Option (List (String × Json)) :=
  match pyJsonLoads output with
  | some (Json.obj fields) =>
    if ((assocGet fields "type").getD Json.null).isStr "result" then
      some (rawClaudeDispatch fields)
    else none
  | _ => none

/-- One line of the key-value parsing inside the fenced summary block of
\_parse_output: split at the first colon, normalize the key, and apply the
recognized keys. -/
def applySummaryLine (result : List (String × Json)) (line : String) : List (String × Json) :=
  match pySplitOnce line ':' with
  | none => result
  | some (k0, v0) =>
    let key := pyReplaceChar (pyLower (pyStrip k0)) ' ' '_'
    let value := pyStrip v0
    if key = "files_changed" || key = "files_created" then
      pyUpsert result key
        (Json.arr ((((value.splitOn ",").map pyStrip).filter (fun f => !f.isEmpty)).map Json.str))
    else if key = "blocked" then
      pyUpsert result "blocked"
        (Json.bool (pyLower value = "yes" || pyLower value = "true" || pyLower value = "1"))
    else if key = "block_reason" then
      pyUpsert result "block_reason" (Json.str value)
    else result

/-- Third and fourth strategies of \_parse_output: the fenced summary block
with key-value lines, else the tail of the output as a fallback summary. -/
def parseSummaryOrFallback (output : String) : List (String × Json) :=
  match findFencedSummaryCapture output.data with
  | some capChars =>
    let summaryText : String := ⟨capChars⟩
    let r := pyUpsert parseOutputInit "summary" (Json.str summaryText)
    (summaryText.splitOn "\n").foldl applySummaryLine r
  | none =>
    pyUpsert parseOutputInit "summary" (Json.str (pyTakeLast output 1500))

/-- BaseAgent.\_parse_output: try the raw CLI JSON, then a fenced json block
updated into the defaults, then a fenced summary block, then the raw tail of
the output; total on every input string. -/
def parseOutput (output : String) : List (String × Json) :=
  match parseRawClaudeJson output with
  | some r => r
  | none =>
    match findFencedJsonCapture output.data with
    | some capChars =>
      match pyJsonLoads ⟨capChars⟩ with
      | some (Json.obj parsed) => pyDictUpdate parseOutputInit parsed
      | some _ => parseSummaryOrFallback output
      | none => parseSummaryOrFallback output
    | none => parseSummaryOrFallback output

/-- Conversion of a parsed JSON value stored where the source expects a list
of file paths: Python keeps the raw list and renders elements on use; a
string iterates into its characters; other shapes contribute nothing in any
observation the source makes. -/
def jToStrList : Json → List String
  | .arr xs => xs.map Json.pyStr
  | .str s => s.data.map (fun c => String.singleton c)
  | _ => []

/-- Conversion of a parsed JSON value stored where the source expects a list
of issue dicts, keeping the severity and description keys it reads. -/
def jToIssues : Json → List Issue
  | .arr xs =>
    xs.map (fun j =>
      match j with
      | .obj f =>
        { severity :=
            match assocGet f "severity" with
            | some (Json.str s) => some s
            | _ => none
          description :=
            match assocGet f "description" with
            | some (Json.str s) => s
            | _ => "" }
      | _ => {})
  | _ => []

/-- Conversion of the stored block_reason value: Python keeps the raw value,
observed only as None or through its string rendering. -/
def jToOptStr : Json → Option String
  | .null => none
  | j => some j.pyStr

/-- Outcome of the external subprocess run inside
BaseAgent.\_invoke_background: either it completed with captured stdout and
an exit flag, or one of the exceptions the source catches was raised. -/
inductive InvocationOutcome where
  | completed (stdout : String) (returncodeZero : Bool)
  | timeoutExpired
  | fileNotFound
  | raised (msg : String)

/-- Whether the outcome is a failure of the external capability. -/
def InvocationOutcome.isFailure : InvocationOutcome → Bool
  | .completed _ _ => false
  | _ => true

/-- BaseAgent.\_invoke_background: translate every outcome of the subprocess
into an output string and a success flag, never propagating an exception. -/
def invokeBackground : InvocationOutcome → String × Bool
  | .completed stdout rcZero => (stdout, rcZero)
  | .timeoutExpired => ("Agent timed out after 10 minutes", false)
  | .fileNotFound => ("Claude CLI not found. Please install claude-code.", false)
  | .raised msg => ("Error invoking agent: " ++ msg, false)

/-- Construction of the AgentResult inside BaseAgent.invoke from the captured
output and subprocess success flag (agents/base.py lines 171-191). The
blocked value is stored by Python as whatever the parse produced and tested
for truthiness; summary, file lists, issues, suggestions and block_reason go
through the explicit conversions of their observed uses. -/
def buildAgentResult (atype : AgentType) (task_id : String) (output : String)
    (success : Bool) (execution_time : Nat) : AgentResult :=
  let parsed := parseOutput output
  let blockedVal := dictGetD parsed "blocked" (Json.bool false)
  { agent_type := atype
    task_id := task_id
    success := success && !blockedVal.truthy
    summary := (dictGetD parsed "summary" (Json.str (pyTake output 1000))).pyStr
    files_changed := jToStrList (dictGetD parsed "files_changed" (Json.arr []))
    files_created := jToStrList (dictGetD parsed "files_created" (Json.arr []))
    issues_found := jToIssues (dictGetD parsed "issues" (Json.arr []))
    suggestions := jToStrList (dictGetD parsed "suggestions" (Json.arr []))
    blocked := blockedVal.truthy
    block_reason := jToOptStr (dictGetD parsed "block_reason" Json.null)
    raw_output := if success then none else some output
    execution_time := execution_time }

/-- BaseAgent.invoke as observed through its returned AgentResult: run the
external capability in background mode and parse whatever came back. Prompt
construction and the per-task debugging files do not influence the result
fields and are omitted. -/
def agentInvoke (atype : AgentType) (task_id : String) (execution_time : Nat)
    (outcome : InvocationOutcome) : AgentResult :=
  let ob := invokeBackground outcome
  buildAgentResult atype task_id ob.1 ob.2 execution_time

/-- The TaskStatus enumeration of orchestrator.py. -/
inductive TaskStatus where
  | pending | running | completed | failed | blocked
deriving DecidableEq

/-- The string value of each TaskStatus member. -/
def TaskStatus.value : TaskStatus → String
  | .pending => "pending"
  | .running => "running"
  | .completed => "completed"
  | .failed => "failed"
  | .blocked => "blocked"

/-- Python TaskStatus(s) lookup by value; none models the ValueError raised
on an unknown value. -/
def TaskStatus.fromValue (s : String) : Option TaskStatus :=
  if s = "pending" then some .pending
  else if s = "running" then some .running
  else if s = "completed" then some .completed
  else if s = "failed" then some .failed
  else if s = "blocked" then some .blocked
  else none

/-- The Task dataclass of orchestrator.py. -/
structure Task where
  id : String
  agent_type : AgentType
  description : String
  context_files : List String := []
  depends_on : List String := []
  status : TaskStatus := .pending
  result : Option AgentResult := none
deriving DecidableEq

/-- The serialized flat record of an AgentResult (AgentResult.to_dict);
raw_output is deliberately absent from the source serialization. -/
structure ResultDict where
  agent_type : String
  task_id : String
  success : Bool
  summary : String
  files_changed : List String
  files_created : List String
  issues_found : List Issue
  suggestions : List String
  blocked : Bool
  block_reason : Option String
  execution_time : Nat
  tokens_used : Option Nat
deriving DecidableEq

/-- AgentResult.to_dict. -/
def AgentResult.to_dict (r : AgentResult) : ResultDict :=
  { agent_type := r.agent_type.value
    task_id := r.task_id
    success := r.success
    summary := r.summary
    files_changed := r.files_changed
    files_created := r.files_created
    issues_found := r.issues_found
    suggestions := r.suggestions
    blocked := r.blocked
    block_reason := r.block_reason
    execution_time := r.execution_time
    tokens_used := r.tokens_used }

/-- The serialized record of a Task (Task.to_dict). -/
structure TaskDict where
  id : String
  agent_type : String
  description : String
  context_files : List String
  depends_on : List String
  status : String
  result : Option ResultDict
deriving DecidableEq

/-- Task.to_dict. -/
def Task.to_dict (t : Task) : TaskDict :=
  { id := t.id
    agent_type := t.agent_type.value
    description := t.description
    context_files := t.context_files
    depends_on := t.depends_on
    status := t.status.value
    result := t.result.map AgentResult.to_dict }

/-- The SwarmState dataclass of orchestrator.py. -/
structure SwarmState where
  session_id : String
  feature_description : String
  created_at : String
  updated_at : String
  status : String := "active"
  architecture : Option String := none
  tasks : List Task := []
  completed_summaries : List String := []
  blockers : List String := []
deriving DecidableEq

/-- The serialized record of a SwarmState (SwarmState.to_dict). -/
structure SwarmDict where
  session_id : String
  feature_description : String
  created_at : String
  updated_at : String
  status : String
  architecture : Option String
  tasks : List TaskDict
  completed_summaries : List String
  blockers : List String
deriving DecidableEq

/-- SwarmState.to_dict. -/
def SwarmState.to_dict (st : SwarmState) : SwarmDict :=
  { session_id := st.session_id
    feature_description := st.feature_description
    created_at := st.created_at
    updated_at := st.updated_at
    status := st.status
    architecture := st.architecture
    tasks := st.tasks.map Task.to_dict
    completed_summaries := st.completed_summaries
    blockers := st.blockers }

/-- Reconstruction of one Task inside SwarmState.from_dict: the source reads
id, agent_type, description, context_files, depends_on and status, and never
reads the serialized result, leaving the dataclass default of None. -/
def taskFromDict (t : TaskDict) : Option Task :=
  match AgentType.fromValue t.agent_type, TaskStatus.fromValue t.status with
  | some atype, some status =>
    some { id := t.id
           agent_type := atype
           description := t.description
           context_files := t.context_files
           depends_on := t.depends_on
           status := status }
  | _, _ => none

/-- SwarmState.from_dict; none models the exceptions raised on unknown enum
values. -/
def SwarmState.from_dict (d : SwarmDict) : Option SwarmState :=
  match d.tasks.mapM taskFromDict with
  | some tasks =>
    some { session_id := d.session_id
           feature_description := d.feature_description
           created_at := d.created_at
           updated_at := d.updated_at
           status := d.status
           architecture := d.architecture
           tasks := tasks
           completed_summaries := d.completed_summaries
           blockers := d.blockers }
  | none => none

/-- The durable session storage: one serialized record per session id, as
written by Orchestrator.\_save_state. -/
def Store := List (String × SwarmDict)

/-- Lookup of one persisted session record by session id. -/
def Store.lookup (store : Store) (sid : String) : Option SwarmDict :=
  match List.find? (fun p => p.1 = sid) store with
  | some p => some p.2
  | none => none

/-- Overwrite of one persisted session record by session id. -/
def Store.put (store : Store) (sid : String) (d : SwarmDict) : Store :=
  match store with
  | [] => [(sid, d)]
  | (k, v) :: rest =>
    if k = sid then (k, d) :: rest else (k, v) :: Store.put rest sid d

/-- Orchestrator.\_save_state: stamp the state with the current time and
overwrite the durable record keyed by the session id. -/
def saveState (st : SwarmState) (store : Store) (now : String) : SwarmState × Store :=
  let st' := { st with updated_at := now }
  (st', Store.put store st'.session_id st'.to_dict)

/-- Orchestrator.\_load_state: read the durable record for a session id and
reconstruct the state from it. -/
def loadState (store : Store) (sid : String) : Option SwarmState :=
  match Store.lookup store sid with
  | some d => SwarmState.from_dict d
  | none => none

/-- The external agent capability behind Orchestrator.invoke_agent: given the
agent type, the task text, the optional context files and the optional
additional context, the spawned agent produces one AgentResult. Agent
construction, per-kind configuration and the subprocess are all behind this
seam. -/
def AgentEnv : Type :=
  AgentType → String → Option (List String) → Option String → AgentResult

/-- The context block Orchestrator.invoke_agent derives from the most recent
five summary digests of the session, merged into the caller-supplied
additional context (orchestrator.py lines 226-232). -/
def buildAdditionalContext (stOpt : Option SwarmState) (addl : Option String) : Option String :=
  match stOpt with
  | some st =>
    if !st.completed_summaries.isEmpty then
      let recent := pyJoin "\n" (st.completed_summaries.drop (st.completed_summaries.length - 5))
      match addl with
      | some a => some (a ++ "\n\n## Recent Activity\n" ++ recent)
      | none => some ("## Recent Activity\n" ++ recent)
    else addl
  | none => addl

/-- The state mutation Orchestrator.invoke_agent performs after the agent
returns (orchestrator.py lines 241-253): append the one-line digest, trim
the rolling history to the last twenty entries, append a blocker line when
the result is blocked, and persist the session. -/
def recordResult (st : SwarmState) (store : Store) (now : String)
    (atype : AgentType) (r : AgentResult) : SwarmState × Store :=
  let summary_line := r.to_summary_string
  let sums := st.completed_summaries ++ [summary_line]
  let sums := if sums.length > 20 then sums.drop (sums.length - 20) else sums
  let blockers :=
    if r.blocked then st.blockers ++ [atype.value ++ ": " ++ pyOptStr r.block_reason]
    else st.blockers
  saveState { st with completed_summaries := sums, blockers := blockers } store now

/-- Orchestrator.invoke_agent: build the recent-activity context, delegate to
the external capability, and, when a session is active, record the result in
the session and persist it. -/
def invokeAgent (env : AgentEnv) (stOpt : Option SwarmState) (store : Store) (now : String)
    (atype : AgentType) (task : String) (context_files : Option (List String))
    (additional_context : Option String) :
    AgentResult × Option SwarmState × Store :=
  let addl := buildAdditionalContext stOpt additional_context
  let result := env atype task context_files addl
  match stOpt with
  | some st =>
    let (st', store') := recordResult st store now atype result
    (result, some st', store')
  | none => (result, none, store)

/-- Zero-padded decimal rendering to at least three digits, as produced by
the Python format spec 03d for a non-negative argument. -/
def pad3 (n : Nat) : String :=
  if n < 10 then "00" ++ toString n
  else if n < 100 then "0" ++ toString n
  else toString n

/-- Orchestrator.\_generate_task_id: increment the per-orchestrator counter
and render it into a task identifier. -/
def generateTaskId (counter : Nat) : String × Nat :=
  ("task_" ++ pad3 (counter + 1), counter + 1)

/-- The fixed fallback plan Orchestrator.plan_feature installs when parsing
tasks out of the architect output fails (orchestrator.py lines 392-418):
four tasks with freshly generated identifiers, the last three of which carry
the hard-coded dependency list of the literal first task identifier. Returns
the tasks and the counter after generation. -/
def fallbackPlanTasks (feature_description : String) (counter : Nat) : List Task × Nat :=
  let (id1, c1) := generateTaskId counter
  let (id2, c2) := generateTaskId c1
  let (id3, c3) := generateTaskId c2
  let (id4, c4) := generateTaskId c3
  ([ { id := id1, agent_type := .coder,
       description := "Implement: " ++ feature_description },
     { id := id2, agent_type := .security,
       description := "Security review", depends_on := ["task_001"] },
     { id := id3, agent_type := .reviewer,
       description := "Code review", depends_on := ["task_001"] },
     { id := id4, agent_type := .tester,
       description := "Write tests", depends_on := ["task_001"] } ], c4)

/-- The per-agent configuration fields consulted by the pipeline. -/
structure AgentConfig where
  enabled : Bool := true

/-- The orchestrator configuration fields consulted by the pipeline. -/
structure OrchestratorConfig where
  parallel_reviews : Bool := true
  require_security_pass : Bool := true
  require_tests : Bool := true

/-- The slice of SwarmConfig the pipeline reads. -/
structure SwarmConfig where
  orchestrator : OrchestratorConfig := {}
  agents : List (String × AgentConfig) := []

/-- Lookup of a per-agent configuration entry, as config.agents.get does. -/
def SwarmConfig.agentConfig (cfg : SwarmConfig) (name : String) : Option AgentConfig :=
  match List.find? (fun p => p.1 = name) cfg.agents with
  | some p => some p.2
  | none => none

/-- The enablement test the pipeline applies to a review or test stage: run
it when its configuration entry is absent or enabled. -/
def SwarmConfig.stageEnabled (cfg : SwarmConfig) (name : String) : Bool :=
  match cfg.agentConfig name with
  | none => true
  | some c => c.enabled

/-- Python dict assignment on the stage-name-to-result mapping returned by
the pipeline. -/
def resultsPut (rs : List (String × AgentResult)) (k : String) (v : AgentResult) :
    List (String × AgentResult) :=
  match rs with
  | [] => [(k, v)]
  | (k0, v0) :: rest =>
    if k0 = k then (k0, v) :: rest else (k0, v0) :: resultsPut rest k v

/-- Lookup in the stage-name-to-result mapping. -/
def resultsGet (rs : List (String × AgentResult)) (k : String) : Option AgentResult :=
  match List.find? (fun p => p.1 = k) rs with
  | some p => some p.2
  | none => none

/-- One review-stage invocation of the pipeline: run the named agent on the
coder summary with the changed files as hints and bind its result under the
stage name. -/
def reviewStep (env : AgentEnv) (now code_summary : String) (changed_files : List String)
    (acc : List (String × AgentResult) × Option SwarmState × Store)
    (nt : String × AgentType) :
    List (String × AgentResult) × Option SwarmState × Store :=
  let (r, st', store') :=
    invokeAgent env acc.2.1 acc.2.2 now nt.2
      ("Review these changes:\n" ++ code_summary) (some changed_files) none
  (resultsPut acc.1 nt.1 r, st', store')

/-- The blocker check of the pipeline: the security stage is present in the
mapping and its result is blocked. -/
def securityBlockCheck (results : List (String × AgentResult)) : Bool :=
  match resultsGet results "security" with
  | some r => r.blocked
  | none => false

/-- Orchestrator.run_pipeline: the fixed coder, parallel security plus
review, then tester flow with early exits. The thread pool of the parallel
branch only makes the completion order of the two review invocations
nondeterministic; the set of stages run and the bindings of the returned
mapping are the same, and the model serializes them in submission order. -/
def runPipeline (env : AgentEnv) (cfg : SwarmConfig) (stOpt : Option SwarmState)
    (store : Store) (now : String) (task : String) (context_files : Option (List String))
    (skip_security skip_tests skip_review : Bool) :
    List (String × AgentResult) × Option SwarmState × Store :=
  let (code_result, st1, store1) := invokeAgent env stOpt store now .coder task context_files none
  let results := resultsPut [] "coder" code_result
  if !code_result.success then (results, st1, store1)
  else
    let changed_files := code_result.files_changed ++ code_result.files_created
    let code_summary := code_result.summary
    let review_tasks : List (String × AgentType) :=
      (if !skip_security && cfg.stageEnabled "security" then [("security", .security)] else []) ++
      (if !skip_review && cfg.stageEnabled "reviewer" then [("review", .reviewer)] else [])
    let (results, st2, store2) :=
      review_tasks.foldl (reviewStep env now code_summary changed_files) (results, st1, store1)
    if securityBlockCheck results && cfg.orchestrator.require_security_pass then
      (results, st2, store2)
    else
      if !skip_tests && cfg.orchestrator.require_tests && cfg.stageEnabled "tester" then
        let (test_result, st3, store3) :=
          invokeAgent env st2 store2 now .tester
            ("Write tests for these changes:\n" ++ code_summary) (some changed_files) none
        (resultsPut results "tester" test_result, st3, store3)
      else (results, st2, store2)

/-- Python list(set(xs)) on file paths: duplicates removed. The iteration
order of a Python set is unspecified; the model fixes first-occurrence
order, and no scheduling decision depends on it. -/
def pySetList (xs : List String) : List String :=
  xs.foldl (fun acc x => if acc.contains x then acc else acc ++ [x]) []

/-- The dependency check of Orchestrator.execute_plan for one task against
the current graph: every identifier in depends_on must name some task whose
status is completed. -/
def depsMet (tasks : List Task) (task : Task) : Bool :=
  task.depends_on.all
    (fun dep => tasks.any (fun t => t.id == dep && t.status == TaskStatus.completed))

/-- The accumulated outcome of one execute_plan call: the evolving session
state, the durable store, and the task-id-to-result mapping returned. -/
structure ExecOut where
  state : SwarmState
  store : Store
  results : List (String × AgentResult)

/-- One iteration of the execute_plan loop at position i of the task list.
Python iterates over the list while mutating the task objects in place; the
list itself never grows or shrinks, so the iteration is indexed and each
step reads the current state of the graph. -/
def execPlanStep (env : AgentEnv) (now : String) (acc : ExecOut) (i : Nat) : ExecOut :=
  let tasks := acc.state.tasks
  match tasks[i]? with
  | none => acc
  | some task =>
    if !depsMet tasks task then acc
    else if task.status != TaskStatus.pending then acc
    else
      let stRun := { acc.state with tasks := tasks.set i { task with status := TaskStatus.running } }
      let (st1, store1) := saveState stRun acc.store now
      let context := st1.tasks.foldl
        (fun ctx t =>
          match t.result with
          | some r =>
            if t.status == TaskStatus.completed then ctx ++ r.files_changed ++ r.files_created
            else ctx
          | none => ctx) []
      let context_files := pySetList (context ++ task.context_files)
      let addl := buildAdditionalContext (some st1) none
      let r := env task.agent_type task.description (some context_files) addl
      let (st2, store2) := recordResult st1 store1 now task.agent_type r
      let newStatus := if r.success then TaskStatus.completed else TaskStatus.failed
      let task1 := { task with result := some r, status := newStatus }
      let task1 := if r.blocked then { task1 with status := TaskStatus.blocked } else task1
      let st3 := { st2 with tasks := st2.tasks.set i task1 }
      let (st4, store3) := saveState st3 store2 now
      { state := st4, store := store3, results := resultsPut acc.results task.id r }

/-- Orchestrator.execute_plan: a single linear pass over the task list,
skipping tasks whose dependencies are unmet or whose status is not pending,
executing the rest through the gateway and persisting after every
transition. The error value models the ValueError raised when there is no
plan; the no-session case is a precondition of supplying a state at all. -/
def executePlan (env : AgentEnv) (now : String) (st0 : SwarmState) (store0 : Store) :
    Except String ExecOut :=
  if st0.tasks.isEmpty then Except.error "No plan to execute. Run plan_feature first."
  else Except.ok ((List.range st0.tasks.length).foldl (execPlanStep env now) ⟨st0, store0, []⟩)

/-! Shared helper lemmas about the small association structures. -/

theorem Store.lookup_put_self (store : Store) (sid : String) (d : SwarmDict) :
    Store.lookup (Store.put store sid d) sid = some d := by
  induction store with
  | nil => simp [Store.put, Store.lookup, List.find?]
  | cons p rest ih =>
    by_cases h : p.1 = sid
    · simp [Store.put, Store.lookup, List.find?, h]
    · simpa [Store.put, Store.lookup, List.find?, h] using ih

theorem resultsGet_put_self (rs : List (String × AgentResult)) (k : String) (v : AgentResult) :
    resultsGet (resultsPut rs k v) k = some v := by
  induction rs with
  | nil => simp [resultsPut, resultsGet, List.find?]
  | cons p rest ih =>
    by_cases h : p.1 = k
    · simp [resultsPut, resultsGet, List.find?, h]
    · simpa [resultsPut, resultsGet, List.find?, h] using ih

theorem resultsGet_put_ne (rs : List (String × AgentResult)) (k k2 : String) (v : AgentResult)
    (h : k ≠ k2) : resultsGet (resultsPut rs k v) k2 = resultsGet rs k2 := by
  have h2 : k2 ≠ k := Ne.symm h
  induction rs with
  | nil => simp [resultsPut, resultsGet, List.find?, h, h2]
  | cons p rest ih =>
    by_cases hp : p.1 = k
    · subst hp
      simp [resultsPut, resultsGet, List.find?, h, h2]
    · by_cases hq : p.1 = k2
      · simp [resultsPut, resultsGet, List.find?, hp, hq, h, h2]
      · simpa [resultsPut, resultsGet, List.find?, hp, hq] using ih

theorem reviewFold_preserves_other (env : AgentEnv) (now code_summary : String)
    (changed_files : List String) (nts : List (String × AgentType)) (k : String)
    (hk : ∀ p ∈ nts, p.1 ≠ k) :
    ∀ acc, resultsGet (nts.foldl (reviewStep env now code_summary changed_files) acc).1 k =
      resultsGet acc.1 k := by
  induction nts with
  | nil => intro acc; rfl
  | cons nt rest ih =>
    intro acc
    have hnt : nt.1 ≠ k := hk nt (List.mem_cons_self nt rest)
    have hrest : ∀ p ∈ rest, p.1 ≠ k := fun p hp => hk p (List.mem_cons_of_mem nt hp)
    rw [List.foldl_cons, ih hrest]
    simp [reviewStep, resultsGet_put_ne _ _ _ _ hnt]

/-! Concrete fixtures used by the claim theorems below. -/

/-- A completed result attached to a task before persistence. -/
def c1Result : AgentResult :=
  { agent_type := .coder, task_id := "tid1", success := true,
    summary := "implemented limiter", files_changed := ["limiter.go"] }

/-- A completed task carrying an attached result. -/
def c1Task : Task :=
  { id := "task_001", agent_type := .coder, description := "implement rate limiting",
    status := .completed, result := some c1Result }

/-- A session state about to be persisted, with history and one blocker. -/
def c1State : SwarmState :=
  { session_id := "sess1", feature_description := "add rate limiting",
    created_at := "T0", updated_at := "T0",
    tasks := [c1Task], completed_summaries := ["[CODER] | ✓ | Changed: limiter.go"],
    blockers := ["security: earlier finding"] }

/-- C1: persisting a session and reconstructing it by session identifier is
claimed to preserve every Task status and attached Result contents together
with the summary and blocker lists. The code serializes the attached Result
(Task.to_dict) but SwarmState.from_dict never reads it back: at this input
the reconstructed state has the same statuses, summaries and blockers but
the reconstructed task has lost its Result, so the persisted Result contents
are not restored. -/
theorem c1_resume_drops_attached_result :
    c1Task.result = some c1Result ∧
    Store.lookup (saveState c1State [] "T1").2 "sess1" =
      some ({ c1State with updated_at := "T1" }).to_dict ∧
    loadState (saveState c1State [] "T1").2 "sess1" =
      some { c1State with updated_at := "T1", tasks := [{ c1Task with result := none }] } := by
  refine ⟨rfl, rfl, rfl⟩

/-- C3 counterexample: when the per-orchestrator task counter is not zero
(for example after a previous planning round consumed four identifiers), the
fallback plan generates fresh identifiers for its four tasks, yet the three
dependent tasks still carry the hard-coded dependency list of the literal
first identifier, which then names no task of the plan at all, let alone the
implement task. -/
theorem c3_counterexample_dangling_fallback_deps :
    ((fallbackPlanTasks "add auth" 4).1.map Task.id) =
      ["task_005", "task_006", "task_007", "task_008"] ∧
    ((fallbackPlanTasks "add auth" 4).1.map Task.depends_on) =
      [[], ["task_001"], ["task_001"], ["task_001"]] ∧
    ("task_001" ∈ (fallbackPlanTasks "add auth" 4).1.map Task.id) = False := by
  refine ⟨rfl, rfl, by decide⟩

/-- C3 (amended): on task-parse failure the fallback installs four tasks, a
coder implement task followed by a security, a reviewer and a tester task,
whose dependency lists are each exactly the literal list of the identifier
of the first generated task of a fresh counter; when the counter was zero
before the fallback, that literal is the implement task identifier. -/
theorem c3_fallback_plan_shape (fd : String) (c : Nat) :
    ((fallbackPlanTasks fd c).1.map Task.agent_type) =
      [.coder, .security, .reviewer, .tester] ∧
    ((fallbackPlanTasks fd c).1.map Task.depends_on) =
      [[], ["task_001"], ["task_001"], ["task_001"]] ∧
    ((fallbackPlanTasks fd c).1.map Task.description) =
      ["Implement: " ++ fd, "Security review", "Code review", "Write tests"] ∧
    (c = 0 → ((fallbackPlanTasks fd c).1.map Task.id) =
      ["task_001", "task_002", "task_003", "task_004"]) := by
  refine ⟨rfl, rfl, rfl, ?_⟩
  rintro rfl
  rfl

/-- C3 witness: the amended statement applied at a zero counter. -/
theorem c3_fallback_plan_shape_witness :
    ((fallbackPlanTasks "add rate limiting" 0).1.map Task.id) =
      ["task_001", "task_002", "task_003", "task_004"] :=
  (c3_fallback_plan_shape "add rate limiting" 0).2.2.2 rfl

/-- An agent output consisting only of a fenced json block that reports
blocked without giving a reason. -/
def c2Output : String :=
  "```json\n\x7b\"blocked\": true\x7d\n```"

/-- C2 counterexample: an agent output whose fenced json block sets blocked
without a block_reason is parsed into a Result with blocked true and an
absent (None) block reason, so blocked does not guarantee a non-empty
block_reason string. -/
theorem c2_counterexample_blocked_without_reason :
    (buildAgentResult .security "tid2" c2Output true 3).blocked = true ∧
    (buildAgentResult .security "tid2" c2Output true 3).block_reason = none := by
  refine ⟨by decide, by decide⟩

/-- C2 (amended): for every Result built by BaseAgent.invoke from any output
and subprocess flag, blocked true forces success false; the non-empty
block_reason half of the original claim fails (see the counterexample). -/
theorem c2_blocked_implies_not_success (atype : AgentType) (task_id output : String)
    (success : Bool) (t : Nat)
    (h : (buildAgentResult atype task_id output success t).blocked = true) :
    (buildAgentResult atype task_id output success t).success = false := by
  unfold buildAgentResult at h ⊢
  simp only at h ⊢
  rw [h]
  simp

/-- C2 witness: the amended implication applied at the concrete blocked
output. -/
theorem c2_blocked_implies_not_success_witness :
    (buildAgentResult .security "tid2" c2Output true 3).success = false :=
  c2_blocked_implies_not_success .security "tid2" c2Output true 3 (by decide)

/-- C10: every failure of the external capability (timeout, missing
executable, crash) is translated by the gateway into an ordinary Result with
success false instead of a propagating exception, and a timeout in
particular yields a Result that is failed but not blocked, with the
descriptive timeout summary. -/
theorem c10_failure_yields_failed_result (atype : AgentType) (task_id : String) (t : Nat)
    (outcome : InvocationOutcome) (h : outcome.isFailure = true) :
    (agentInvoke atype task_id t outcome).success = false ∧
    (outcome = .timeoutExpired →
      (agentInvoke atype task_id t outcome).blocked = false ∧
      (agentInvoke atype task_id t outcome).summary = "Agent timed out after 10 minutes") := by
  cases outcome with
  | completed stdout rc => simp [InvocationOutcome.isFailure] at h
  | timeoutExpired => exact ⟨rfl, fun _ => ⟨rfl, rfl⟩⟩
  | fileNotFound => exact ⟨rfl, fun hh => by cases hh⟩
  | raised msg =>
    refine ⟨rfl, fun hh => by cases hh⟩

/-- C10 witness: the theorem applied at the timeout outcome. -/
theorem c10_failure_yields_failed_result_witness :
    (agentInvoke .coder "tid3" 7 .timeoutExpired).success = false ∧
    (agentInvoke .coder "tid3" 7 .timeoutExpired).blocked = false :=
  ⟨(c10_failure_yields_failed_result .coder "tid3" 7 .timeoutExpired (by decide)).1,
   ((c10_failure_yields_failed_result .coder "tid3" 7 .timeoutExpired (by decide)).2 rfl).1⟩

/-- C5: after the state mutation every gateway invocation performs on an
active session, the rolling summary history has length at most twenty, and
it is exactly the appended history with its oldest overflow dropped, hence a
suffix of the appended history: eviction is first-in-first-out and the
surviving entries keep their relative order. -/
theorem recordResult_summaries_eq (st : SwarmState) (store : Store) (now : String)
    (atype : AgentType) (r : AgentResult) :
    (recordResult st store now atype r).1.completed_summaries =
      (st.completed_summaries ++ [r.to_summary_string]).drop
        (st.completed_summaries.length + 1 - 20) := by
  simp only [recordResult, saveState]
  by_cases hm : 20 < st.completed_summaries.length + 1
  · simp [hm]
  · simp [hm, Nat.sub_eq_zero_of_le (by omega : st.completed_summaries.length + 1 ≤ 20)]

theorem recordResult_summaries_getLast (st : SwarmState) (store : Store) (now : String)
    (atype : AgentType) (r : AgentResult) :
    (recordResult st store now atype r).1.completed_summaries.getLast? =
      some r.to_summary_string := by
  rw [recordResult_summaries_eq]
  rw [List.drop_append_of_le_length (by omega)]
  exact List.getLast?_concat _

theorem c5_rolling_history_capped (st : SwarmState) (store : Store) (now : String)
    (atype : AgentType) (r : AgentResult) :
    ((recordResult st store now atype r).1.completed_summaries).length ≤ 20 ∧
    (recordResult st store now atype r).1.completed_summaries =
      (st.completed_summaries ++ [r.to_summary_string]).drop
        (st.completed_summaries.length + 1 - 20) ∧
    (recordResult st store now atype r).1.completed_summaries <:+
      (st.completed_summaries ++ [r.to_summary_string]) := by
  have hmain := recordResult_summaries_eq st store now atype r
  refine ⟨?_, hmain, ?_⟩
  · rw [hmain]
    simp [List.length_drop]
    omega
  · rw [hmain]
    exact List.drop_suffix _ _

/-- C4: a gateway invocation with an active session returns with the
one-line digest of the new result appended as the newest entry of the
rolling history, the blocker line of the agent kind and rendered reason
appended exactly when the result is blocked, and the mutated session
persisted to storage under its session identifier before the call returns. -/
theorem c4_gateway_records_and_persists (env : AgentEnv) (st : SwarmState) (store : Store)
    (now : String) (atype : AgentType) (task : String) (ctx : Option (List String))
    (addl : Option String) :
    ((invokeAgent env (some st) store now atype task ctx addl).2.1).isSome = true ∧
    ∀ stNew, (invokeAgent env (some st) store now atype task ctx addl).2.1 = some stNew →
      stNew.completed_summaries.getLast? =
        some ((invokeAgent env (some st) store now atype task ctx addl).1.to_summary_string) ∧
      ((invokeAgent env (some st) store now atype task ctx addl).1.blocked = true →
        stNew.blockers = st.blockers ++
          [atype.value ++ ": " ++
            pyOptStr (invokeAgent env (some st) store now atype task ctx addl).1.block_reason]) ∧
      ((invokeAgent env (some st) store now atype task ctx addl).1.blocked = false →
        stNew.blockers = st.blockers) ∧
      Store.lookup (invokeAgent env (some st) store now atype task ctx addl).2.2 st.session_id =
        some stNew.to_dict ∧
      stNew.session_id = st.session_id := by
  refine ⟨rfl, ?_⟩
  intro stNew h
  have hst : stNew =
      (recordResult st store now atype
        (env atype task ctx (buildAdditionalContext (some st) addl))).1 :=
    (Option.some.inj h).symm
  subst hst
  refine ⟨recordResult_summaries_getLast st store now atype _, ?_, ?_, ?_, rfl⟩
  · intro hb
    simp only [invokeAgent] at hb ⊢
    simp [recordResult, saveState, hb]
  · intro hb
    simp only [invokeAgent] at hb ⊢
    simp [recordResult, saveState, hb]
  · exact Store.lookup_put_self store st.session_id _

/-- A gateway environment whose agent always reports a security block. -/
def c4Env : AgentEnv := fun atype _ _ _ =>
  { agent_type := atype, task_id := "w4", success := false, summary := "found a secret",
    blocked := true, block_reason := some "hardcoded secret found" }

/-- A fresh session for the C4 witness. -/
def c4State : SwarmState :=
  { session_id := "sess4", feature_description := "audit", created_at := "T0", updated_at := "T0" }

/-- C4 witness: the theorem applied at a concrete blocked invocation yields
the concrete blocker line. -/
theorem c4_gateway_records_and_persists_witness :
    (((invokeAgent c4Env (some c4State) [] "T1" .security "scan" none none).2.1).getD
        c4State).blockers = ["security: hardcoded secret found"] := by
  have h := (c4_gateway_records_and_persists c4Env c4State [] "T1" .security "scan" none none).2
    (((invokeAgent c4Env (some c4State) [] "T1" .security "scan" none none).2.1).getD c4State) rfl
  have hb := h.2.1 rfl
  simpa using hb

/-- C8: when the first pipeline stage fails, the pipeline returns
immediately and its mapping holds exactly the coder entry; no downstream
stage is invoked. -/
theorem c8_pipeline_stops_after_coder_failure (env : AgentEnv) (cfg : SwarmConfig)
    (stOpt : Option SwarmState) (store : Store) (now task : String)
    (ctx : Option (List String)) (sks skt skr : Bool)
    (h : ((invokeAgent env stOpt store now .coder task ctx none).1).success = false) :
    (runPipeline env cfg stOpt store now task ctx sks skt skr).1 =
      [("coder", (invokeAgent env stOpt store now .coder task ctx none).1)] := by
  simp only [runPipeline, h]
  rfl

/-- A gateway environment whose coder always fails. -/
def c8Env : AgentEnv := fun atype _ _ _ =>
  { agent_type := atype, task_id := "w8", success := false, summary := "compile error" }

/-- C8 witness: the theorem applied at a concrete failing coder run. -/
theorem c8_pipeline_stops_after_coder_failure_witness :
    (runPipeline c8Env {} none [] "T1" "build it" none false false false).1 =
      [("coder", c8Env .coder "build it" none none)] :=
  c8_pipeline_stops_after_coder_failure c8Env {} none [] "T1" "build it" none
    false false false rfl

/-- C9: if policy requires a security pass and the security stage of a
pipeline run came back blocked, the tester stage never runs: the returned
mapping has no tester entry. -/
theorem c9_security_block_skips_tester (env : AgentEnv) (cfg : SwarmConfig)
    (stOpt : Option SwarmState) (store : Store) (now task : String)
    (ctx : Option (List String)) (sks skt skr : Bool) (r : AgentResult)
    (hreq : cfg.orchestrator.require_security_pass = true)
    (hsec : resultsGet (runPipeline env cfg stOpt store now task ctx sks skt skr).1 "security" =
      some r)
    (hblk : r.blocked = true) :
    resultsGet (runPipeline env cfg stOpt store now task ctx sks skt skr).1 "tester" = none := by
  by_cases hc : ((invokeAgent env stOpt store now .coder task ctx none).1).success = true
  · simp only [runPipeline, hc] at hsec ⊢
    have hff : ¬ ((!true : Bool) = true) := by decide
    rw [if_neg hff] at hsec ⊢
    rw [hreq] at hsec ⊢
    simp only [Bool.and_true] at hsec ⊢
    set cr := (invokeAgent env stOpt store now AgentType.coder task ctx none).1 with hcrdef
    set rts : List (String × AgentType) :=
      (if !sks && cfg.stageEnabled "security" then [("security", AgentType.security)] else []) ++
      (if !skr && cfg.stageEnabled "reviewer" then [("review", AgentType.reviewer)] else []) with hrts
    have hnames : ∀ p ∈ rts, p.1 ≠ "tester" := by
      intro p hp
      rcases List.mem_append.1 hp with hmem | hmem
      · by_cases hcond : (!sks && cfg.stageEnabled "security") = true
        · rw [if_pos hcond] at hmem
          simp at hmem
          subst hmem
          decide
        · rw [if_neg hcond] at hmem
          cases hmem
      · by_cases hcond : (!skr && cfg.stageEnabled "reviewer") = true
        · rw [if_pos hcond] at hmem
          simp at hmem
          subst hmem
          decide
        · rw [if_neg hcond] at hmem
          cases hmem
    set F := List.foldl (reviewStep env now cr.summary (cr.files_changed ++ cr.files_created))
      (resultsPut [] "coder" cr,
        (invokeAgent env stOpt store now AgentType.coder task ctx none).2.1,
        (invokeAgent env stOpt store now AgentType.coder task ctx none).2.2) rts with hF
    have htester : resultsGet F.1 "tester" = none := by
      rw [hF]
      rw [reviewFold_preserves_other env now cr.summary (cr.files_changed ++ cr.files_created)
        rts "tester" hnames]
      simp [resultsPut, resultsGet, List.find?]
    by_cases hsb : securityBlockCheck F.1 = true
    · rw [if_pos hsb] at hsec ⊢
      exact htester
    · rw [if_neg hsb] at hsec ⊢
      by_cases htc : (!skt && cfg.orchestrator.require_tests && cfg.stageEnabled "tester") = true
      · rw [if_pos htc] at hsec ⊢
        rw [resultsGet_put_ne _ _ _ _ (by decide)] at hsec
        have hcontra : securityBlockCheck F.1 = true := by
          simp [securityBlockCheck, hsec, hblk]
        exact absurd hcontra hsb
      · rw [if_neg htc] at hsec ⊢
        exact htester
  · have hc2 : ((invokeAgent env stOpt store now .coder task ctx none).1).success = false := by
      revert hc
      cases ((invokeAgent env stOpt store now AgentType.coder task ctx none).1).success <;> simp
    simp only [runPipeline, hc2] at hsec
    simp [resultsGet, List.find?] at hsec

/-- A gateway environment whose coder succeeds and whose security reviewer
blocks. -/
def c9Env : AgentEnv := fun atype _ _ _ =>
  if atype == AgentType.security then
    { agent_type := atype, task_id := "w9", success := false, summary := "finding",
      blocked := true, block_reason := some "hardcoded secret found" }
  else { agent_type := atype, task_id := "w9", success := true, summary := "done" }

/-- The security result the environment above produces. -/
def c9SecResult : AgentResult :=
  { agent_type := .security, task_id := "w9", success := false, summary := "finding",
    blocked := true, block_reason := some "hardcoded secret found" }

/-- C9 witness: the theorem applied at a concrete blocked security stage
under the default configuration. -/
theorem c9_security_block_skips_tester_witness :
    resultsGet (runPipeline c9Env {} none [] "T1" "add auth" none false false false).1
      "tester" = none :=
  c9_security_block_skips_tester c9Env {} none [] "T1" "add auth" none false false false
    c9SecResult rfl (by decide) rfl

/-! Invariants of the plan-executor loop used by the scheduling claims. -/

/-- The scheduling-relevant signature of a task: its identifier and its
dependency list, neither of which any executor step rewrites. -/
def taskSig (t : Task) : String × List String := (t.id, t.depends_on)

theorem execPlanStep_sig (env : AgentEnv) (now : String) (acc : ExecOut) (i j : Nat) :
    ((execPlanStep env now acc i).state.tasks[j]?).map taskSig =
      (acc.state.tasks[j]?).map taskSig := by
  cases htask : acc.state.tasks[i]? with
  | none => simp [execPlanStep, htask]
  | some task =>
    by_cases hdm : (!depsMet acc.state.tasks task) = true
    · simp [execPlanStep, htask, hdm]
    · by_cases hst : (task.status != TaskStatus.pending) = true
      · simp [execPlanStep, htask, hdm, hst]
      · by_cases hij : i = j
        · subst hij
          simp only [execPlanStep, htask, hdm, hst, recordResult, saveState,
            Bool.false_eq_true, if_false]
          rw [List.getElem?_set_self', List.getElem?_set_self', htask]
          simp only [Option.map_map, Option.map_some, Function.comp, Function.const]
          split <;> rfl
        · simp only [execPlanStep, htask, hdm, hst, recordResult, saveState,
            Bool.false_eq_true, if_false]
          rw [List.getElem?_set_ne hij, List.getElem?_set_ne hij]

theorem depsMet_false_of_dangling (tasks : List Task) (t0 : Task) (dep : String)
    (hd : dep ∈ t0.depends_on) (hids : ∀ t ∈ tasks, t.id ≠ dep) :
    depsMet tasks t0 = false := by
  unfold depsMet
  rw [List.all_eq_false]
  refine ⟨dep, hd, ?_⟩
  have hany : tasks.any (fun t => t.id == dep && t.status == TaskStatus.completed) = false := by
    rw [List.any_eq_false]
    intro t htm
    simp [hids t htm]
  simp [hany]

theorem execPlanStep_dangling (env : AgentEnv) (now : String) (acc : ExecOut)
    (i0 : Nat) (t0 : Task) (dep : String) (k : Nat)
    (ht : acc.state.tasks[i0]? = some t0) (hd : dep ∈ t0.depends_on)
    (hids : ∀ t ∈ acc.state.tasks, t.id ≠ dep) :
    (execPlanStep env now acc k).state.tasks[i0]? = some t0 := by
  cases htask : acc.state.tasks[k]? with
  | none => simp [execPlanStep, htask, ht]
  | some task =>
    by_cases hdm : (!depsMet acc.state.tasks task) = true
    · simp [execPlanStep, htask, hdm, ht]
    · by_cases hst : (task.status != TaskStatus.pending) = true
      · simp [execPlanStep, htask, hdm, hst, ht]
      · have hki : k ≠ i0 := by
          intro hk
          subst hk
          rw [htask] at ht
          have htt : task = t0 := Option.some.inj ht
          subst htt
          have hf := depsMet_false_of_dangling acc.state.tasks task dep hd hids
          rw [hf] at hdm
          simp at hdm
        simp only [execPlanStep, htask, hdm, hst, recordResult, saveState,
          Bool.false_eq_true, if_false]
        rw [List.getElem?_set_ne hki, List.getElem?_set_ne hki, ht]

theorem foldl_preserves_dangling (env : AgentEnv) (now : String) (st0 : SwarmState)
    (i0 : Nat) (t0 : Task) (dep : String)
    (hd : dep ∈ t0.depends_on) (hnone : ∀ t ∈ st0.tasks, t.id ≠ dep) :
    ∀ (l : List Nat) (acc : ExecOut),
      acc.state.tasks[i0]? = some t0 →
      (∀ j : Nat, (acc.state.tasks[j]?).map taskSig = (st0.tasks[j]?).map taskSig) →
      (l.foldl (execPlanStep env now) acc).state.tasks[i0]? = some t0 := by
  intro l
  induction l with
  | nil => intro acc hacc _; exact hacc
  | cons k rest ih =>
    intro acc hacc hsig
    rw [List.foldl_cons]
    have hids : ∀ t ∈ acc.state.tasks, t.id ≠ dep := by
      intro t htm
      obtain ⟨j, hj⟩ := List.mem_iff_getElem?.1 htm
      have hs := hsig j
      rw [hj] at hs
      cases hj0 : st0.tasks[j]? with
      | none =>
        rw [hj0] at hs
        exact absurd hs (by simp)
      | some tt =>
        rw [hj0] at hs
        have hss : taskSig t = taskSig tt := Option.some.inj (by simpa using hs)
        have hid : t.id = tt.id := congrArg Prod.fst hss
        rw [hid]
        exact hnone tt (List.getElem?_mem hj0)
    apply ih
    · exact execPlanStep_dangling env now acc i0 t0 dep k hacc hd hids
    · intro j
      rw [execPlanStep_sig, hsig j]

/-- C6: in one execute_plan pass, a pending task one of whose dependency
identifiers matches no task identifier of the graph is skipped in every
iteration and is still pending, in fact entirely unchanged, when the call
returns, regardless of what the other tasks did in the same pass. -/
theorem c6_dangling_dependency_stays_pending (env : AgentEnv) (now : String)
    (st0 : SwarmState) (store0 : Store) (i : Nat) (t0 : Task) (dep : String)
    (ht : st0.tasks[i]? = some t0) (hp : t0.status = TaskStatus.pending)
    (hd : dep ∈ t0.depends_on) (hnone : ∀ t ∈ st0.tasks, t.id ≠ dep) :
    (Except.toOption (executePlan env now st0 store0)).map
        (fun out => (out.state.tasks[i]?).map Task.status) =
      some (some TaskStatus.pending) := by
  have hemp : st0.tasks.isEmpty = false := by
    cases hts : st0.tasks with
    | nil => rw [hts] at ht; simp at ht
    | cons a l => rfl
  have hfin := foldl_preserves_dangling env now st0 i t0 dep hd hnone
    (List.range st0.tasks.length) ⟨st0, store0, []⟩ ht (fun _ => rfl)
  have hne : ¬ (st0.tasks.isEmpty = true) := by
    rw [hemp]
    exact Bool.false_ne_true
  unfold executePlan
  rw [if_neg hne]
  simp only [Except.toOption, Option.map_some']
  rw [hfin]
  simp [hp]

/-- A gateway environment whose agents always succeed. -/
def c6Env : AgentEnv := fun atype _ _ _ =>
  { agent_type := atype, task_id := "w6", success := true, summary := "done" }

/-- A pending task whose single dependency identifier names no task. -/
def c6Task : Task :=
  { id := "t1", agent_type := .security, description := "scan", depends_on := ["ghost"] }

/-- A session whose graph holds only the dangling-dependency task. -/
def c6State : SwarmState :=
  { session_id := "s6", feature_description := "f", created_at := "T0", updated_at := "T0",
    tasks := [c6Task] }

/-- C6 witness: the theorem applied at the concrete dangling graph. -/
theorem c6_dangling_dependency_stays_pending_witness :
    (Except.toOption (executePlan c6Env "T1" c6State [])).map
        (fun out => (out.state.tasks[0]?).map Task.status) =
      some (some TaskStatus.pending) :=
  c6_dangling_dependency_stays_pending c6Env "T1" c6State [] 0 c6Task "ghost"
    rfl rfl (by decide) (by decide)

theorem execPlanStep_noop_of_no_pending (env : AgentEnv) (now : String)
    (acc : ExecOut) (i : Nat)
    (h : ∀ t ∈ acc.state.tasks, t.status ≠ TaskStatus.pending) :
    execPlanStep env now acc i = acc := by
  cases htask : acc.state.tasks[i]? with
  | none => simp [execPlanStep, htask]
  | some task =>
    have hmem : task ∈ acc.state.tasks := List.getElem?_mem htask
    have hst : task.status ≠ TaskStatus.pending := h task hmem
    by_cases hdm : depsMet acc.state.tasks task = true
    · have hne : (task.status != TaskStatus.pending) = true := by
        simp [bne_iff_ne, hst]
      simp [execPlanStep, htask, hdm, hne]
    · have hdm2 : depsMet acc.state.tasks task = false := by
        revert hdm
        cases depsMet acc.state.tasks task <;> simp
      simp [execPlanStep, htask, hdm2]

/-- C7: when every task of the graph is already out of pending, one more
execute_plan call performs no transitions at all: the session state, the
store and the returned mapping are untouched. -/
theorem c7_resolved_graph_is_noop (env : AgentEnv) (now : String) (st0 : SwarmState)
    (store0 : Store) (h : ∀ t ∈ st0.tasks, t.status ≠ TaskStatus.pending) :
    ∀ out, executePlan env now st0 store0 = Except.ok out →
      out.state = st0 ∧ out.store = store0 ∧ out.results = [] := by
  intro out hout
  have hfold : ∀ l : List Nat,
      l.foldl (execPlanStep env now) ⟨st0, store0, []⟩ = ⟨st0, store0, []⟩ := by
    intro l
    induction l with
    | nil => rfl
    | cons i rest ih =>
      rw [List.foldl_cons, execPlanStep_noop_of_no_pending env now ⟨st0, store0, []⟩ i h, ih]
  by_cases hemp : st0.tasks.isEmpty
  · simp [executePlan, hemp] at hout
  · simp only [executePlan, hemp, Bool.false_eq_true, if_false] at hout
    have hval : out = ⟨st0, store0, []⟩ := by
      rw [← Except.ok.inj hout, hfold]
    rw [hval]
    exact ⟨rfl, rfl, rfl⟩

/-- A gateway environment for the C7 witness (never consulted). -/
def c7Env : AgentEnv := fun atype _ _ _ =>
  { agent_type := atype, task_id := "w7", success := true, summary := "done" }

/-- An already completed task. -/
def c7Task : Task :=
  { id := "t1", agent_type := .coder, description := "impl", status := .completed }

/-- A session whose graph is fully resolved. -/
def c7State : SwarmState :=
  { session_id := "s7", feature_description := "f", created_at := "T0", updated_at := "T0",
    tasks := [c7Task] }

/-- C7 witness: the theorem applied at the concrete resolved graph. -/
theorem c7_resolved_graph_is_noop_witness :
    (executePlan c7Env "T1" c7State []).toOption.map ExecOut.state = some c7State := by
  have hok : executePlan c7Env "T1" c7State [] =
      Except.ok ((List.range c7State.tasks.length).foldl
        (execPlanStep c7Env "T1") ⟨c7State, [], []⟩) := rfl
  have h2 := c7_resolved_graph_is_noop c7Env "T1" c7State [] (by decide) _ hok
  rw [hok]
  simp [Except.toOption, h2.1]

end ClaudeSwarm
